import Mathlib

/-!
Verification of the lab-result interpreter (src/main.py).

The module part of `main.py` (the class-based interpreter) is shallowly
embedded here.  Python numbers are modelled by `PyNum`: a rational value
together with a flag recording whether the Python object is a `float` or an
`int` (the distinction only matters for `str()` formatting inside f-strings;
comparisons are exact on the rational values).  Python dictionaries are
modelled as association lists with Python's insertion-order semantics:
lookup finds the first (unique) matching key, assignment replaces an
existing entry in place and otherwise appends.  Raising `ValueError`
is modelled as returning `Except.error` with the message, paired with the
unchanged object state.
-/

/-- A Python number: `isFloat` records whether it is a `float` (else `int`);
`val` is its exact rational value.  All numbers in the program's tables are
integers or one-decimal-digit decimals, on which ℚ is exact. -/
structure PyNum where
  isFloat : Bool
  val : ℚ
  deriving DecidableEq, Repr

/-- A Python `float` literal. -/
def pyF (q : ℚ) : PyNum := ⟨true, q⟩

/-- A Python `int` literal. -/
def pyI (n : ℤ) : PyNum := ⟨false, n⟩

/-- Python `str()` of a nonnegative float with at most one decimal digit
(every float literal in the tables has this shape): `11.0` prints as
`"11.0"`, `13.5` as `"13.5"`. -/
def pyFloatRepr (q : ℚ) : String :=
  if q.den = 1 then toString q.num ++ ".0"
  else toString (q.num * 10 / (q.den : ℤ) / 10) ++ "." ++ toString (q.num * 10 / (q.den : ℤ) % 10)

/-- Python `str()` of a `PyNum`: ints print without a decimal point. -/
def PyNum.str (n : PyNum) : String :=
  if n.isFloat then pyFloatRepr n.val else toString n.val.num

/-- `class ResultStatus(Enum)` from main.py. -/
inductive ResultStatus where
  | NORMAL
  | LOW
  | HIGH
  | CRITICAL_LOW
  | CRITICAL_HIGH
  deriving DecidableEq, Repr

/-- The `.value` attribute of each `ResultStatus` enum member. -/
def ResultStatus.value : ResultStatus → String
  | .NORMAL => "NORMAL"
  | .LOW => "LOW"
  | .HIGH => "HIGH"
  | .CRITICAL_LOW => "CRITICAL_LOW"
  | .CRITICAL_HIGH => "CRITICAL_HIGH"

/-- `@dataclass ReferenceRange` from main.py. -/
structure ReferenceRange where
  min_value : PyNum
  max_value : PyNum
  critical_low : Option PyNum := none
  critical_high : Option PyNum := none
  unit : String := ""
  deriving DecidableEq, Repr

/-- `ReferenceRange.get_status` from main.py, an exact transcription of the
four-guard chain (early return = first match wins). -/
def ReferenceRange.get_status (self : ReferenceRange) (value : ℚ) : ResultStatus :=
  if self.critical_low.any (fun cl => decide (value < cl.val)) then
    ResultStatus.CRITICAL_LOW
  else if self.critical_high.any (fun ch => decide (value > ch.val)) then
    ResultStatus.CRITICAL_HIGH
  else if value < self.min_value.val then
    ResultStatus.LOW
  else if value > self.max_value.val then
    ResultStatus.HIGH
  else
    ResultStatus.NORMAL

/-- `@dataclass TestResult` from main.py. -/
structure TestResult where
  test_name : String
  value : ℚ
  unit : String
  reference_range : ReferenceRange
  status : ResultStatus
  interpretation : String
  clinical_significance : String
  deriving DecidableEq, Repr

/-- Python `dict` lookup (`d[k]` / `d.get(k)`): first entry with the key. -/
def dictLookup {α : Type} : List (String × α) → String → Option α
  | [], _ => none
  | p :: rest, k => if p.1 == k then some p.2 else dictLookup rest k

/-- Python `k in d`. -/
def dictContains {α : Type} (l : List (String × α)) (k : String) : Bool :=
  (dictLookup l k).isSome

/-- Python `d[k] = v`: replace the entry in place if the key exists,
otherwise append at the end (insertion order). -/
def dictSet {α : Type} : List (String × α) → String → α → List (String × α)
  | [], k, v => [(k, v)]
  | p :: rest, k, v => if p.1 == k then (k, v) :: rest else p :: dictSet rest k v

/-- Python `list(d.keys())`. -/
def dictKeys {α : Type} (l : List (String × α)) : List String :=
  l.map Prod.fst

/-- `class LabTest` state from main.py: the result cache, the panel name,
the reference-range table and the interpretation table. -/
structure LabTest where
  results : List (String × TestResult) := []
  test_name : String := "Base Lab Test"
  reference_ranges : List (String × ReferenceRange) := []
  interpretations : List (String × List (String × String)) := []
  deriving DecidableEq, Repr

/-- `LabTest.interpret_result` from main.py.  Returns the result (or the
`ValueError` message) together with the updated object state; the `raise`
path leaves the state untouched. -/
def LabTest.interpret_result (self : LabTest) (test_code : String) (value : ℚ) :
    Except String TestResult × LabTest :=
  match dictLookup self.reference_ranges test_code with
  | none => (Except.error ("Unknown test code: " ++ test_code), self)
  | some ref_range =>
    let status := ref_range.get_status value
    let interpretation :=
      (dictLookup ((dictLookup self.interpretations test_code).getD []) status.value).getD
        ("See reference ranges.")
    let result : TestResult :=
      { test_name := test_code
        value := value
        unit := ref_range.unit
        reference_range := ref_range
        status := status
        interpretation := interpretation
        clinical_significance :=
          "Normal range: " ++ ref_range.min_value.str ++ "-" ++ ref_range.max_value.str
            ++ " " ++ ref_range.unit }
    (Except.ok result, { self with results := dictSet self.results test_code result })

/-- `class CompleteBloodCount(LabTest)` from main.py: its constructed state. -/
def CompleteBloodCount : LabTest :=
  { results := []
    test_name := "Complete Blood Count (CBC)"
    reference_ranges :=
      [ ("WBC", { min_value := pyF (mkRat 45 10), max_value := pyF (mkRat 110 10), critical_low := some (pyF (mkRat 20 10)), critical_high := some (pyF (mkRat 200 10)), unit := "10^3/µL" }),
        ("RBC", { min_value := pyF (mkRat 45 10), max_value := pyF (mkRat 59 10), critical_low := some (pyF (mkRat 20 10)), critical_high := some (pyF (mkRat 70 10)), unit := "10^6/µL" }),
        ("Hemoglobin", { min_value := pyF (mkRat 135 10), max_value := pyF (mkRat 175 10), critical_low := some (pyF (mkRat 70 10)), critical_high := some (pyF (mkRat 200 10)), unit := "g/dL" }),
        ("Hematocrit", { min_value := pyI 41, max_value := pyI 53, critical_low := some (pyI 20), critical_high := some (pyI 70), unit := "%" }),
        ("MCV", { min_value := pyI 80, max_value := pyI 100, unit := "fL" }),
        ("Platelets", { min_value := pyI 150, max_value := pyI 400, critical_low := some (pyI 50), critical_high := some (pyI 800), unit := "10^3/µL" }) ]
    interpretations :=
      [ ("WBC",
          [ ("HIGH", "Elevated white blood cells may indicate infection, inflammation, or leukemia."),
            ("LOW", "Low white blood cells may indicate bone marrow disorder, autoimmune disease, or medication side effects.") ]),
        ("RBC",
          [ ("HIGH", "Elevated RBC may indicate dehydration, polycythemia, or chronic hypoxia."),
            ("LOW", "Low RBC may indicate anemia, blood loss, or bone marrow failure.") ]),
        ("Hemoglobin",
          [ ("HIGH", "Elevated hemoglobin may indicate dehydration or polycythemia."),
            ("LOW", "Low hemoglobin indicates anemia - check MCV to determine type.") ]),
        ("Hematocrit",
          [ ("HIGH", "Elevated hematocrit may indicate dehydration or polycythemia."),
            ("LOW", "Low hematocrit indicates anemia or blood loss.") ]),
        ("MCV",
          [ ("HIGH", "High MCV (macrocytic anemia) - may indicate B12/folate deficiency or reticulocytosis."),
            ("LOW", "Low MCV (microcytic anemia) - may indicate iron deficiency or thalassemia.") ]),
        ("Platelets",
          [ ("HIGH", "Elevated platelets may indicate inflammation, malignancy, or essential thrombocythemia."),
            ("LOW", "Low platelets (thrombocytopenia) increases bleeding risk and requires investigation.") ]) ] }

/-- `class BasicMetabolicPanel(LabTest)` from main.py: its constructed state. -/
def BasicMetabolicPanel : LabTest :=
  { results := []
    test_name := "Basic Metabolic Panel (BMP)"
    reference_ranges :=
      [ ("Sodium", { min_value := pyI 136, max_value := pyI 145, critical_low := some (pyI 120), critical_high := some (pyI 160), unit := "mEq/L" }),
        ("Potassium", { min_value := pyF (mkRat 35 10), max_value := pyF (mkRat 50 10), critical_low := some (pyF (mkRat 28 10)), critical_high := some (pyF (mkRat 60 10)), unit := "mEq/L" }),
        ("Chloride", { min_value := pyI 98, max_value := pyI 107, unit := "mEq/L" }),
        ("CO2", { min_value := pyI 23, max_value := pyI 29, unit := "mEq/L" }),
        ("BUN", { min_value := pyI 7, max_value := pyI 20, critical_high := some (pyI 100), unit := "mg/dL" }),
        ("Creatinine", { min_value := pyF (mkRat 7 10), max_value := pyF (mkRat 13 10), critical_high := some (pyF (mkRat 40 10)), unit := "mg/dL" }),
        ("Glucose", { min_value := pyI 70, max_value := pyI 100, critical_low := some (pyI 40), critical_high := some (pyI 400), unit := "mg/dL" }),
        ("Calcium", { min_value := pyF (mkRat 85 10), max_value := pyF (mkRat 102 10), critical_low := some (pyF (mkRat 65 10)), critical_high := some (pyF (mkRat 130 10)), unit := "mg/dL" }) ]
    interpretations :=
      [ ("Sodium",
          [ ("HIGH", "Hypernatremia - may indicate dehydration or diabetes insipidus."),
            ("LOW", "Hyponatremia - may indicate SIADH, heart/kidney/liver disease, or excess water intake.") ]),
        ("Potassium",
          [ ("HIGH", "Hyperkalemia - dangerous for heart; may indicate kidney failure or excessive supplementation."),
            ("LOW", "Hypokalemia - may cause muscle weakness; check diuretic use and diarrhea.") ]),
        ("Glucose",
          [ ("HIGH", "Hyperglycemia - may indicate diabetes, stress, or prednisone use."),
            ("LOW", "Hypoglycemia - requires immediate evaluation; risk of seizure/coma.") ]),
        ("BUN",
          [ ("HIGH", "Elevated BUN may indicate kidney disease, dehydration, or high protein diet."),
            ("LOW", "Low BUN may indicate liver disease, malnutrition, or overhydration.") ]),
        ("Creatinine",
          [ ("HIGH", "Elevated creatinine indicates reduced kidney function - calculate GFR."),
            ("LOW", "Low creatinine may indicate low muscle mass or liver disease.") ]) ] }

/-- `class LipidPanel(LabTest)` from main.py: its constructed state. -/
def LipidPanel : LabTest :=
  { results := []
    test_name := "Lipid Panel"
    reference_ranges :=
      [ ("Total_Cholesterol", { min_value := pyI 0, max_value := pyI 200, unit := "mg/dL" }),
        ("LDL", { min_value := pyI 0, max_value := pyI 100, unit := "mg/dL" }),
        ("HDL", { min_value := pyI 40, max_value := pyI 300, unit := "mg/dL" }),
        ("Triglycerides", { min_value := pyI 0, max_value := pyI 150, unit := "mg/dL" }) ]
    interpretations :=
      [ ("Total_Cholesterol",
          [ ("HIGH", "High total cholesterol increases cardiovascular disease risk."),
            ("NORMAL", "Optimal cholesterol level for cardiovascular health.") ]),
        ("LDL",
          [ ("HIGH", "High LDL (\x27bad\x27 cholesterol) increases heart attack and stroke risk."),
            ("NORMAL", "LDL at optimal level reduces cardiovascular disease risk.") ]),
        ("HDL",
          [ ("LOW", "Low HDL (\x27good\x27 cholesterol) increases cardiovascular disease risk."),
            ("HIGH", "High HDL protects against cardiovascular disease.") ]),
        ("Triglycerides",
          [ ("HIGH", "High triglycerides increase cardiovascular disease risk and pancreatitis risk."),
            ("NORMAL", "Normal triglyceride level reduces cardiovascular risk.") ]) ] }

/-- `class LabInterpreter` state from main.py. -/
structure LabInterpreter where
  tests : List (String × LabTest)
  deriving DecidableEq, Repr

/-- `LabInterpreter.__init__` from main.py. -/
def LabInterpreter.init : LabInterpreter :=
  { tests :=
      [ ("CBC", CompleteBloodCount),
        ("BMP", BasicMetabolicPanel),
        ("LP", LipidPanel) ] }

/-- `LabInterpreter.interpret` from main.py: dispatch to the catalog.  The
in-place mutation of the chosen catalog is modelled by writing its updated
state back under its panel key; the `raise` path leaves everything
untouched. -/
def LabInterpreter.interpret (self : LabInterpreter) (test_type : String)
    (test_code : String) (value : ℚ) : Except String TestResult × LabInterpreter :=
  match dictLookup self.tests test_type with
  | none => (Except.error ("Unknown test type: " ++ test_type), self)
  | some t =>
    let r := t.interpret_result test_code value
    (r.1, { tests := dictSet self.tests test_type r.2 })

/-- `LabInterpreter.get_available_tests` from main.py. -/
def LabInterpreter.get_available_tests (self : LabInterpreter) :
    List (String × List String) :=
  self.tests.map (fun p => (p.1, dictKeys p.2.reference_ranges))

/-- The `TestResult` that `interpret_result` builds once the range for
`test_code` has been resolved to `ref_range` (named so statements can refer
to the returned record). -/
def interpretOutcome (t : LabTest) (test_code : String) (value : ℚ)
    (ref_range : ReferenceRange) : TestResult :=
  { test_name := test_code
    value := value
    unit := ref_range.unit
    reference_range := ref_range
    status := ref_range.get_status value
    interpretation :=
      (dictLookup ((dictLookup t.interpretations test_code).getD [])
        (ref_range.get_status value).value).getD ("See reference ranges.")
    clinical_significance :=
      "Normal range: " ++ ref_range.min_value.str ++ "-" ++ ref_range.max_value.str
        ++ " " ++ ref_range.unit }

/-- Substring test on the character lists of two strings. -/
def strContainsAux (needle : List Char) : List Char → Bool
  | [] => needle.isEmpty
  | c :: rest => needle.isPrefixOf (c :: rest) || strContainsAux needle rest

/-- `sub` occurs as a contiguous substring of `s`. -/
def strContains (s sub : String) : Bool :=
  strContainsAux sub.data s.data

/-- The per-range shape invariant the spec intends: `min ≤ max`, a defined
critical-low lies at or below the minimum, a defined critical-high lies at
or above the maximum. -/
def rangeWellOrdered (r : ReferenceRange) : Bool :=
  decide (r.min_value.val ≤ r.max_value.val) &&
  (r.critical_low.all fun cl => decide (cl.val ≤ r.min_value.val)) &&
  (r.critical_high.all fun ch => decide (r.max_value.val ≤ ch.val))

/-- No inner interpretation table of `t` carries an entry for either
critical status. -/
def noCriticalTexts (t : LabTest) : Bool :=
  t.interpretations.all fun p =>
    p.2.all fun q => !(q.1 == ("CRITICAL_LOW") || q.1 == ("CRITICAL_HIGH"))

/-- The CBC Hemoglobin reference range, as constructed in main.py. -/
def hemoglobinRange : ReferenceRange :=
  { min_value := pyF (mkRat 135 10), max_value := pyF (mkRat 175 10),
    critical_low := some (pyF (mkRat 70 10)), critical_high := some (pyF (mkRat 200 10)), unit := "g/dL" }

theorem dictLookup_dictSet_self {α : Type} (l : List (String × α)) (k : String) (v : α) :
    dictLookup (dictSet l k v) k = some v := by
  induction l with
  | nil => simp [dictSet, dictLookup]
  | cons p rest ih =>
    by_cases h : p.1 == k
    · simp [dictSet, h, dictLookup]
    · simp [dictSet, h, dictLookup, ih]

theorem dictLookup_dictSet_ne {α : Type} (l : List (String × α)) (k k2 : String) (v : α)
    (h : k2 ≠ k) : dictLookup (dictSet l k v) k2 = dictLookup l k2 := by
  induction l with
  | nil =>
    simp only [dictSet, dictLookup]
    rw [if_neg]
    simp [beq_iff_eq, Ne.symm h]
  | cons p rest ih =>
    by_cases hp : p.1 == k
    · have hp2 : (p.1 == k2) = false := by
        rw [beq_iff_eq] at hp
        simp [beq_iff_eq, hp, Ne.symm h]
      simp [dictSet, hp, dictLookup, hp2, beq_iff_eq, Ne.symm h]
    · simp [dictSet, hp, dictLookup, ih]

theorem mem_dictKeys_iff {α : Type} (l : List (String × α)) (k : String) :
    k ∈ dictKeys l ↔ dictContains l k = true := by
  induction l with
  | nil => simp [dictKeys, dictContains, dictLookup]
  | cons p rest ih =>
    by_cases h : p.1 == k
    · rw [beq_iff_eq] at h
      simp [dictKeys, dictContains, dictLookup, h]
    · have h2 : p.1 ≠ k := by simpa [beq_iff_eq] using h
      simp [dictKeys, dictContains, dictLookup, h, Ne.symm h2]
      simpa [dictKeys, dictContains] using ih

theorem dictKeys_dictSet {α : Type} (l : List (String × α)) (k : String) (v : α) :
    dictKeys (dictSet l k v) =
      if dictContains l k then dictKeys l else dictKeys l ++ [k] := by
  induction l with
  | nil => simp [dictSet, dictKeys, dictContains, dictLookup]
  | cons p rest ih =>
    by_cases h : p.1 == k
    · rw [beq_iff_eq] at h
      simp [dictSet, dictKeys, dictContains, dictLookup, h]
    · simp only [dictSet, h, dictKeys, dictContains, dictLookup, ite_false, Bool.false_eq_true,
        if_false, List.map_cons]
      simp only [dictKeys, dictContains] at ih
      rw [ih]
      by_cases hc : (dictLookup rest k).isSome <;> simp [hc, h]

theorem nodup_dictKeys_dictSet {α : Type} (l : List (String × α)) (k : String) (v : α)
    (h : (dictKeys l).Nodup) : (dictKeys (dictSet l k v)).Nodup := by
  rw [dictKeys_dictSet]
  split
  · exact h
  · rename_i hc
    have hk : k ∉ dictKeys l := by
      rw [mem_dictKeys_iff]
      simpa using hc
    simp [List.nodup_append, h, hk]

theorem mem_of_dictLookup {α : Type} (l : List (String × α)) (k : String) (x : α)
    (h : dictLookup l k = some x) : (k, x) ∈ l := by
  induction l with
  | nil => simp [dictLookup] at h
  | cons p rest ih =>
    rcases p with ⟨k0, x0⟩
    by_cases hp : k0 == k
    · rw [beq_iff_eq] at hp
      subst hp
      simp [dictLookup] at h
      subst h
      exact List.mem_cons_self _ _
    · simp [dictLookup, hp] at h
      exact List.mem_cons_of_mem _ (ih h)

theorem dictLookup_eq_none_of_forall_ne {α : Type} (l : List (String × α)) (k : String)
    (h : ∀ p ∈ l, p.1 ≠ k) : dictLookup l k = none := by
  induction l with
  | nil => rfl
  | cons p rest ih =>
    have h1 : (p.1 == k) = false := by
      simpa [beq_iff_eq] using h p (List.mem_cons_self p rest)
    simp only [dictLookup, h1, Bool.false_eq_true, if_false]
    exact ih fun q hq => h q (List.mem_cons_of_mem p hq)

theorem critLow_guard_false (r : ReferenceRange) (v : ℚ)
    (hno : ∀ cl, r.critical_low = some cl → ¬ v < cl.val) :
    r.critical_low.any (fun cl => decide (v < cl.val)) = false := by
  rcases hcl : r.critical_low with _ | cl
  · rfl
  · simp [hno cl hcl]

theorem critHigh_guard_false (r : ReferenceRange) (v : ℚ)
    (hno : ∀ ch, r.critical_high = some ch → ¬ v > ch.val) :
    r.critical_high.any (fun ch => decide (v > ch.val)) = false := by
  rcases hch : r.critical_high with _ | ch
  · rfl
  · simp [hno ch hch]

/-- C1: for every `ReferenceRange` and every numeric value,
`ReferenceRange.get_status` follows the ordered first-match-wins rule: if
critical-low is defined and value < critical-low the result is
CRITICAL_LOW; else if critical-high is defined and value > critical-high
the result is CRITICAL_HIGH; else if value < minimum the result is LOW;
else if value > maximum the result is HIGH; else the result is NORMAL.
(The embedding is a pure function of `(range, value)`, matching the
side-effect-free source method.) -/
theorem C1_get_status_first_match (r : ReferenceRange) (v : ℚ) :
    (∀ cl, r.critical_low = some cl → v < cl.val →
      r.get_status v = ResultStatus.CRITICAL_LOW) ∧
    ((∀ cl, r.critical_low = some cl → ¬ v < cl.val) →
      ∀ ch, r.critical_high = some ch → v > ch.val →
        r.get_status v = ResultStatus.CRITICAL_HIGH) ∧
    ((∀ cl, r.critical_low = some cl → ¬ v < cl.val) →
      (∀ ch, r.critical_high = some ch → ¬ v > ch.val) →
      v < r.min_value.val → r.get_status v = ResultStatus.LOW) ∧
    ((∀ cl, r.critical_low = some cl → ¬ v < cl.val) →
      (∀ ch, r.critical_high = some ch → ¬ v > ch.val) →
      ¬ v < r.min_value.val → v > r.max_value.val →
      r.get_status v = ResultStatus.HIGH) ∧
    ((∀ cl, r.critical_low = some cl → ¬ v < cl.val) →
      (∀ ch, r.critical_high = some ch → ¬ v > ch.val) →
      ¬ v < r.min_value.val → ¬ v > r.max_value.val →
      r.get_status v = ResultStatus.NORMAL) := by
  refine ⟨?_, ?_, ?_, ?_, ?_⟩
  · intro cl hcl hlt
    simp [ReferenceRange.get_status, hcl, hlt]
  · intro hno ch hch hgt
    simp [ReferenceRange.get_status, critLow_guard_false r v hno, hch, hgt]
  · intro hno hnoh hlt
    simp [ReferenceRange.get_status, critLow_guard_false r v hno,
      critHigh_guard_false r v hnoh, hlt]
  · intro hno hnoh hge hgt
    simp [ReferenceRange.get_status, critLow_guard_false r v hno,
      critHigh_guard_false r v hnoh, hge, hgt]
  · intro hno hnoh hge hle
    simp [ReferenceRange.get_status, critLow_guard_false r v hno,
      critHigh_guard_false r v hnoh, hge, hle]

/-- C1 witness: at the CBC Hemoglobin range and value 6, the first rule
fires and the status is CRITICAL_LOW. -/
theorem C1_get_status_first_match_witness :
    hemoglobinRange.critical_low = some (pyF (mkRat 70 10)) ∧ (6 : ℚ) < (pyF (mkRat 70 10)).val ∧
    hemoglobinRange.get_status 6 = ResultStatus.CRITICAL_LOW :=
  ⟨rfl, by decide,
    (C1_get_status_first_match hemoglobinRange 6).1 (pyF (mkRat 70 10)) rfl (by decide)⟩

/-- C2 counterexample: the claim quantifies over every `ReferenceRange`,
but `get_status` validates nothing.  With `critical_low = 5 > min_value = 0`
the minimum is classified CRITICAL_LOW, not NORMAL; and with
`critical_low = min_value = 0` the critical-low boundary is classified
NORMAL, not LOW.  Both parts of the claim fail on such ranges. -/
theorem C2_boundary_counterexample :
    (ReferenceRange.get_status
        { min_value := pyF 0, max_value := pyF 1,
          critical_low := some (pyF 5), critical_high := none, unit := "" }
        ((pyF 0).val) ≠ ResultStatus.NORMAL) ∧
    (ReferenceRange.get_status
        { min_value := pyF 0, max_value := pyF 1,
          critical_low := some (pyF 0), critical_high := none, unit := "" }
        ((pyF 0).val) ≠ ResultStatus.LOW) := by
  decide

/-- C2 amended: for every well-ordered `ReferenceRange` (minimum ≤ maximum,
a defined critical-low strictly below the minimum, a defined critical-high
strictly above the maximum — the shape all shipped ranges have), boundary
values are classified inclusively and critical thresholds strictly:
`get_status` at the minimum and at the maximum is NORMAL; at a defined
critical-low it is LOW while every value strictly below is CRITICAL_LOW;
at a defined critical-high it is HIGH while every value strictly above is
CRITICAL_HIGH. -/
theorem C2_boundaries_amended (r : ReferenceRange)
    (hmm : r.min_value.val ≤ r.max_value.val)
    (hcl : ∀ cl, r.critical_low = some cl → cl.val < r.min_value.val)
    (hch : ∀ ch, r.critical_high = some ch → r.max_value.val < ch.val) :
    r.get_status r.min_value.val = ResultStatus.NORMAL ∧
    r.get_status r.max_value.val = ResultStatus.NORMAL ∧
    (∀ cl, r.critical_low = some cl →
      r.get_status cl.val = ResultStatus.LOW ∧
      ∀ v : ℚ, v < cl.val → r.get_status v = ResultStatus.CRITICAL_LOW) ∧
    (∀ ch, r.critical_high = some ch →
      r.get_status ch.val = ResultStatus.HIGH ∧
      ∀ v : ℚ, v > ch.val → r.get_status v = ResultStatus.CRITICAL_HIGH) := by
  refine ⟨?_, ?_, ?_, ?_⟩
  · have g1 : r.critical_low.any (fun cl => decide (r.min_value.val < cl.val)) = false :=
      critLow_guard_false _ _ fun cl h => not_lt.mpr (le_of_lt (hcl cl h))
    have g2 : r.critical_high.any (fun ch => decide (r.min_value.val > ch.val)) = false :=
      critHigh_guard_false _ _ fun ch h => not_lt.mpr (le_of_lt (lt_of_le_of_lt hmm (hch ch h)))
    simp [ReferenceRange.get_status, g1, g2, hmm]
  · have g1 : r.critical_low.any (fun cl => decide (r.max_value.val < cl.val)) = false :=
      critLow_guard_false _ _ fun cl h => not_lt.mpr (le_of_lt (lt_of_lt_of_le (hcl cl h) hmm))
    have g2 : r.critical_high.any (fun ch => decide (r.max_value.val > ch.val)) = false :=
      critHigh_guard_false _ _ fun ch h => not_lt.mpr (le_of_lt (hch ch h))
    simp [ReferenceRange.get_status, g1, g2, hmm]
  · intro cl hcl0
    constructor
    · have g1 : r.critical_low.any (fun c => decide (cl.val < c.val)) = false := by
        rcases h : r.critical_low with _ | c
        · rfl
        · rw [hcl0] at h
          cases h
          simp
      have g2 : r.critical_high.any (fun ch => decide (cl.val > ch.val)) = false :=
        critHigh_guard_false _ _ fun ch h =>
          not_lt.mpr (le_of_lt (lt_trans (lt_of_lt_of_le (hcl cl hcl0) hmm) (hch ch h)))
      simp [ReferenceRange.get_status, g1, g2, hcl cl hcl0]
    · intro v hv
      simp [ReferenceRange.get_status, hcl0, hv]
  · intro ch hch0
    constructor
    · have g1 : r.critical_low.any (fun cl => decide (ch.val < cl.val)) = false :=
        critLow_guard_false _ _ fun cl h =>
          not_lt.mpr (le_of_lt (lt_trans (lt_of_lt_of_le (hcl cl h) hmm) (hch ch hch0)))
      have g2 : r.critical_high.any (fun c => decide (ch.val > c.val)) = false := by
        rcases h : r.critical_high with _ | c
        · rfl
        · rw [hch0] at h
          cases h
          simp
      have g3 : ¬ ch.val < r.min_value.val :=
        not_lt.mpr (le_of_lt (lt_of_le_of_lt hmm (hch ch hch0)))
      simp [ReferenceRange.get_status, g1, g2, g3, hch ch hch0]
    · intro v hv
      have g1 : r.critical_low.any (fun cl => decide (v < cl.val)) = false :=
        critLow_guard_false _ _ fun cl h =>
          not_lt.mpr
            (le_of_lt (lt_trans (lt_trans (lt_of_lt_of_le (hcl cl h) hmm) (hch ch hch0)) hv))
      simp [ReferenceRange.get_status, g1, hch0, hv]

/-- C2 witness: the amended boundary properties instantiated at the CBC
Hemoglobin range (13.5–17.5, criticals 7.0 and 20.0). -/
theorem C2_boundaries_amended_witness :
    hemoglobinRange.min_value.val ≤ hemoglobinRange.max_value.val ∧
    (hemoglobinRange.get_status hemoglobinRange.min_value.val = ResultStatus.NORMAL ∧
     hemoglobinRange.get_status hemoglobinRange.max_value.val = ResultStatus.NORMAL ∧
     (∀ cl, hemoglobinRange.critical_low = some cl →
       hemoglobinRange.get_status cl.val = ResultStatus.LOW ∧
       ∀ v : ℚ, v < cl.val → hemoglobinRange.get_status v = ResultStatus.CRITICAL_LOW) ∧
     (∀ ch, hemoglobinRange.critical_high = some ch →
       hemoglobinRange.get_status ch.val = ResultStatus.HIGH ∧
       ∀ v : ℚ, v > ch.val → hemoglobinRange.get_status v = ResultStatus.CRITICAL_HIGH)) :=
  ⟨by decide,
    C2_boundaries_amended hemoglobinRange (by decide)
      (fun cl h => by
        rw [show hemoglobinRange.critical_low = some (pyF (mkRat 70 10)) from rfl] at h
        cases h
        decide)
      (fun ch h => by
        rw [show hemoglobinRange.critical_high = some (pyF (mkRat 200 10)) from rfl] at h
        cases h
        decide)⟩

/-- C3 counterexample: the error raised for an unknown test code is
exactly `"Unknown test code: Foo"`.  It contains neither the panel key
`"CBC"` nor the panel's name, and distinct panels produce the identical
message, so the error does not identify the panel as the claim states. -/
theorem C3_unknown_code_counterexample :
    (CompleteBloodCount.interpret_result ("Foo") 1).1 =
      Except.error ("Unknown test code: Foo") ∧
    strContains ("Unknown test code: Foo") ("CBC") = false ∧
    strContains ("Unknown test code: Foo") (CompleteBloodCount.test_name) = false ∧
    (CompleteBloodCount.interpret_result ("Foo") 1).1 =
      (BasicMetabolicPanel.interpret_result ("Foo") 1).1 ∧
    CompleteBloodCount.test_name ≠ BasicMetabolicPanel.test_name := by
  refine ⟨rfl, by decide, by decide, rfl, by decide⟩

/-- C3 amended: for every catalog and every test code absent from its
reference-range mapping, `interpret_result` fails with an error naming the
test code (but not the panel): the message is exactly
`"Unknown test code: " ++ code`, and the catalog's state — in particular
its result cache — is left unchanged. -/
theorem C3_unknown_code_amended (t : LabTest) (code : String) (v : ℚ)
    (h : dictLookup t.reference_ranges code = none) :
    (t.interpret_result code v).1 = Except.error ("Unknown test code: " ++ code) ∧
    (t.interpret_result code v).2 = t := by
  simp [LabTest.interpret_result, h]

/-- C3 witness: the amended statement at the CBC catalog and the unknown
code `"Foo"`. -/
theorem C3_unknown_code_amended_witness :
    dictLookup CompleteBloodCount.reference_ranges ("Foo") = none ∧
    ((CompleteBloodCount.interpret_result ("Foo") 1).1 =
        Except.error ("Unknown test code: " ++ "Foo") ∧
      (CompleteBloodCount.interpret_result ("Foo") 1).2 = CompleteBloodCount) :=
  ⟨rfl, C3_unknown_code_amended CompleteBloodCount ("Foo") 1 rfl⟩

/-- C4: for every interpreter state and every panel code absent from its
panel mapping, `LabInterpreter.interpret` fails with an error naming the
requested panel code (`"Unknown test type: " ++ panel`), no delegation to
any catalog occurs, and the whole interpreter state — every catalog's
result cache included — is unchanged. -/
theorem C4_unknown_panel (I : LabInterpreter) (panel code : String) (v : ℚ)
    (h : dictLookup I.tests panel = none) :
    (I.interpret panel code v).1 = Except.error ("Unknown test type: " ++ panel) ∧
    (I.interpret panel code v).2 = I := by
  simp [LabInterpreter.interpret, h]

/-- C4 witness: the unknown panel `"XYZ"` on the freshly constructed
interpreter (spec scenario 6). -/
theorem C4_unknown_panel_witness :
    dictLookup LabInterpreter.init.tests ("XYZ") = none ∧
    ((LabInterpreter.init.interpret ("XYZ") ("Hemoglobin") 15).1 =
        Except.error ("Unknown test type: " ++ "XYZ") ∧
      (LabInterpreter.init.interpret ("XYZ") ("Hemoglobin") 15).2 = LabInterpreter.init) :=
  ⟨rfl, C4_unknown_panel LabInterpreter.init ("XYZ") ("Hemoglobin") 15 rfl⟩

theorem interpret_result_found (t : LabTest) (code : String) (v : ℚ) (r : ReferenceRange)
    (h : dictLookup t.reference_ranges code = some r) :
    t.interpret_result code v =
      (Except.ok (interpretOutcome t code v r),
       { t with results := dictSet t.results code (interpretOutcome t code v r) }) := by
  simp [LabTest.interpret_result, h, interpretOutcome]

/-- C5: for every catalog, every test code present in its reference-range
mapping and every value, `interpret_result` resolves the range, computes
the status via `get_status`, looks up the interpretation keyed by
(test code, status value) with fallback `"See reference ranges."`, and
returns a `TestResult` carrying the value, the range's unit, the range,
the status, the interpretation, and the summary
`"Normal range: {min}-{max} {unit}"`.  Concretely,
`interpret("CBC", "Hemoglobin", 15.0)` returns status NORMAL, unit
`"g/dL"` and summary `"Normal range: 13.5-17.5 g/dL"`. -/
theorem C5_interpret_known (t : LabTest) (code : String) (r : ReferenceRange) (v : ℚ)
    (h : dictLookup t.reference_ranges code = some r) :
    ((t.interpret_result code v).1 = Except.ok (interpretOutcome t code v r) ∧
     (interpretOutcome t code v r).value = v ∧
     (interpretOutcome t code v r).unit = r.unit ∧
     (interpretOutcome t code v r).reference_range = r ∧
     (interpretOutcome t code v r).status = r.get_status v ∧
     (∀ s, dictLookup ((dictLookup t.interpretations code).getD []) (r.get_status v).value =
         some s → (interpretOutcome t code v r).interpretation = s) ∧
     (dictLookup ((dictLookup t.interpretations code).getD []) (r.get_status v).value = none →
       (interpretOutcome t code v r).interpretation = "See reference ranges.") ∧
     (interpretOutcome t code v r).clinical_significance =
       "Normal range: " ++ r.min_value.str ++ "-" ++ r.max_value.str ++ " " ++ r.unit) ∧
    (∃ res, (LabInterpreter.init.interpret ("CBC") ("Hemoglobin") 15).1 = Except.ok res ∧
      res.status = ResultStatus.NORMAL ∧ res.unit = "g/dL" ∧
      res.clinical_significance = "Normal range: 13.5-17.5 g/dL") := by
  refine ⟨⟨?_, rfl, rfl, rfl, rfl, ?_, ?_, rfl⟩, ?_⟩
  · simp [interpret_result_found t code v r h]
  · intro s hs
    simp [interpretOutcome, hs]
  · intro hs
    simp [interpretOutcome, hs]
  · exact ⟨interpretOutcome CompleteBloodCount ("Hemoglobin") 15 hemoglobinRange,
      rfl, by decide, rfl, rfl⟩

/-- C5 witness: the theorem instantiated at the CBC catalog, test code
Hemoglobin, its range and value 15. -/
theorem C5_interpret_known_witness :
    dictLookup CompleteBloodCount.reference_ranges ("Hemoglobin") = some hemoglobinRange ∧
    (CompleteBloodCount.interpret_result ("Hemoglobin") 15).1 =
      Except.ok (interpretOutcome CompleteBloodCount ("Hemoglobin") 15 hemoglobinRange) :=
  ⟨rfl, ((C5_interpret_known CompleteBloodCount ("Hemoglobin") hemoglobinRange 15 rfl).1).1⟩

theorem dictContains_dictSet_self {α : Type} (l : List (String × α)) (k : String) (v : α) :
    dictContains (dictSet l k v) k = true := by
  simp [dictContains, dictLookup_dictSet_self]

/-- C6: calling `interpret_result` twice for the same test code (present in
the catalog) with two different values leaves exactly one cached entry for
that code, that entry equals the `TestResult` returned by the second call
(last write wins), and no other cache entry is touched by either call. -/
theorem C6_cache_last_write_wins (t : LabTest) (code : String) (v1 v2 : ℚ)
    (hv : v1 ≠ v2)
    (hc : dictContains t.reference_ranges code = true)
    (hnd : (dictKeys t.results).Nodup) :
    ((dictKeys ((t.interpret_result code v1).2.interpret_result code v2).2.results).count code
        = 1) ∧
    (∃ res2, ((t.interpret_result code v1).2.interpret_result code v2).1 = Except.ok res2 ∧
      dictLookup ((t.interpret_result code v1).2.interpret_result code v2).2.results code =
        some res2) ∧
    (∀ c : String, c ≠ code →
      dictLookup ((t.interpret_result code v1).2.interpret_result code v2).2.results c =
        dictLookup t.results c) := by
  have hc2 : (dictLookup t.reference_ranges code).isSome = true := hc
  obtain ⟨r, hr⟩ := Option.isSome_iff_exists.mp hc2
  have e1 : (t.interpret_result code v1).2 =
      { t with results := dictSet t.results code (interpretOutcome t code v1 r) } :=
    congrArg Prod.snd (interpret_result_found t code v1 r hr)
  have hr1 : dictLookup ((t.interpret_result code v1).2).reference_ranges code = some r := by
    rw [e1]
    exact hr
  have e2 : ((t.interpret_result code v1).2.interpret_result code v2) =
      (Except.ok (interpretOutcome ((t.interpret_result code v1).2) code v2 r),
       { ((t.interpret_result code v1).2) with
          results := dictSet ((t.interpret_result code v1).2).results code
            (interpretOutcome ((t.interpret_result code v1).2) code v2 r) }) :=
    interpret_result_found _ code v2 r hr1
  refine ⟨?_, ?_, ?_⟩
  · rw [e2]
    dsimp only
    rw [e1]
    dsimp only
    rw [dictKeys_dictSet, dictContains_dictSet_self]
    simp only [if_true]
    rw [dictKeys_dictSet]
    by_cases hmem : dictContains t.results code
    · simp only [hmem, if_true]
      exact List.count_eq_one_of_mem hnd ((mem_dictKeys_iff t.results code).mpr hmem)
    · simp only [hmem, Bool.false_eq_true, if_false, List.count_append]
      have h0 : (dictKeys t.results).count code = 0 :=
        List.count_eq_zero_of_not_mem
          (fun hm => hmem ((mem_dictKeys_iff t.results code).mp hm))
      simp [h0]
  · refine ⟨interpretOutcome ((t.interpret_result code v1).2) code v2 r, ?_, ?_⟩
    · rw [e2]
    · rw [e2]
      dsimp only
      exact dictLookup_dictSet_self _ _ _
  · intro c hcne
    rw [e2]
    dsimp only
    rw [dictLookup_dictSet_ne _ _ _ _ hcne, e1]
    dsimp only
    rw [dictLookup_dictSet_ne _ _ _ _ hcne]

/-- C6 witness: two Hemoglobin interpretations (values 10 then 15) on the
fresh CBC catalog. -/
theorem C6_cache_last_write_wins_witness :
    (10 : ℚ) ≠ 15 ∧
    dictContains CompleteBloodCount.reference_ranges ("Hemoglobin") = true ∧
    (dictKeys CompleteBloodCount.results).Nodup ∧
    (((dictKeys ((CompleteBloodCount.interpret_result ("Hemoglobin") 10).2.interpret_result
          ("Hemoglobin") 15).2.results).count ("Hemoglobin") = 1) ∧
      (∃ res2, ((CompleteBloodCount.interpret_result ("Hemoglobin") 10).2.interpret_result
            ("Hemoglobin") 15).1 = Except.ok res2 ∧
        dictLookup ((CompleteBloodCount.interpret_result ("Hemoglobin") 10).2.interpret_result
            ("Hemoglobin") 15).2.results ("Hemoglobin") = some res2) ∧
      (∀ c : String, c ≠ "Hemoglobin" →
        dictLookup ((CompleteBloodCount.interpret_result ("Hemoglobin") 10).2.interpret_result
            ("Hemoglobin") 15).2.results c = dictLookup CompleteBloodCount.results c)) :=
  ⟨by decide, by decide, by decide,
    C6_cache_last_write_wins CompleteBloodCount ("Hemoglobin") 10 15
      (by decide) (by decide) (by decide)⟩

/-- C7: `get_available_tests` is a pure read-only function of the
interpreter state; on the constructed interpreter it returns, per panel,
the test codes in catalog construction order: CBC ↦ [WBC, RBC, Hemoglobin,
Hematocrit, MCV, Platelets], BMP ↦ [Sodium, Potassium, Chloride, CO2, BUN,
Creatinine, Glucose, Calcium], LP ↦ [Total_Cholesterol, LDL, HDL,
Triglycerides]. -/
theorem C7_available_tests :
    LabInterpreter.init.get_available_tests =
      [ ("CBC", ["WBC", "RBC", "Hemoglobin", "Hematocrit", "MCV", "Platelets"]),
        ("BMP", ["Sodium", "Potassium", "Chloride", "CO2", "BUN", "Creatinine", "Glucose",
          "Calcium"]),
        ("LP", ["Total_Cholesterol", "LDL", "HDL", "Triglycerides"]) ] := by
  decide

/-- C8: in each constructed catalog, every key of the interpretation table
is also a key of the reference-range mapping; the reverse inclusion indeed
fails (BMP's Chloride has a range but no interpretation entry). -/
theorem C8_interpretation_keys_have_ranges :
    ((dictKeys CompleteBloodCount.interpretations).all
        (fun c => dictContains CompleteBloodCount.reference_ranges c) = true) ∧
    ((dictKeys BasicMetabolicPanel.interpretations).all
        (fun c => dictContains BasicMetabolicPanel.reference_ranges c) = true) ∧
    ((dictKeys LipidPanel.interpretations).all
        (fun c => dictContains LipidPanel.reference_ranges c) = true) ∧
    dictContains BasicMetabolicPanel.reference_ranges ("Chloride") = true ∧
    dictContains BasicMetabolicPanel.interpretations ("Chloride") = false := by
  decide

/-- C9: every `ReferenceRange` in the three fixed panel tables is
well-ordered: `min_value ≤ max_value`, a defined `critical_low` is at most
`min_value`, and a defined `critical_high` is at least `max_value` (the
constructor validates nothing, but the shipped data satisfies this). -/
theorem C9_ranges_well_ordered :
    ((CompleteBloodCount.reference_ranges).all (fun p => rangeWellOrdered p.2) = true) ∧
    ((BasicMetabolicPanel.reference_ranges).all (fun p => rangeWellOrdered p.2) = true) ∧
    ((LipidPanel.reference_ranges).all (fun p => rangeWellOrdered p.2) = true) := by
  decide

theorem dictLookup_inner_none (l : List (String × String)) (key : String)
    (h : l.all (fun q => !(q.1 == ("CRITICAL_LOW") || q.1 == ("CRITICAL_HIGH"))) = true)
    (hk : key = "CRITICAL_LOW" ∨ key = "CRITICAL_HIGH") :
    dictLookup l key = none := by
  apply dictLookup_eq_none_of_forall_ne
  intro p hp
  have hq := List.all_eq_true.mp h p hp
  simp only [Bool.not_eq_eq_eq_not, Bool.not_true, Bool.or_eq_false_iff, beq_eq_false_iff_ne,
    ne_eq] at hq
  rcases hk with hk | hk <;> subst hk
  · exact hq.1
  · exact hq.2

/-- C10: no interpretation table of the three panels defines text for
CRITICAL_LOW or CRITICAL_HIGH, so whenever the computed status is one of
the two critical statuses, the returned `TestResult` carries the fallback
interpretation `"See reference ranges."`. -/
theorem C10_critical_fallback (t : LabTest) (code : String) (r : ReferenceRange) (v : ℚ)
    (ht : t = CompleteBloodCount ∨ t = BasicMetabolicPanel ∨ t = LipidPanel)
    (hr : dictLookup t.reference_ranges code = some r)
    (hs : r.get_status v = ResultStatus.CRITICAL_LOW ∨
      r.get_status v = ResultStatus.CRITICAL_HIGH) :
    noCriticalTexts t = true ∧
    (t.interpret_result code v).1 = Except.ok (interpretOutcome t code v r) ∧
    (interpretOutcome t code v r).interpretation = "See reference ranges." := by
  have hnt : noCriticalTexts t = true := by
    rcases ht with h | h | h <;> subst h <;> decide
  refine ⟨hnt, by simp [interpret_result_found t code v r hr], ?_⟩
  have hkey : (r.get_status v).value = "CRITICAL_LOW" ∨
      (r.get_status v).value = "CRITICAL_HIGH" := by
    rcases hs with h | h <;> rw [h]
    · exact Or.inl rfl
    · exact Or.inr rfl
  show (dictLookup ((dictLookup t.interpretations code).getD [])
      (r.get_status v).value).getD ("See reference ranges.") = "See reference ranges."
  rcases hinner : dictLookup t.interpretations code with _ | inner
  · rfl
  · have hmem := mem_of_dictLookup _ _ _ hinner
    have hall := List.all_eq_true.mp hnt (code, inner) hmem
    have hnone := dictLookup_inner_none inner ((r.get_status v).value) hall hkey
    simp [hnone]

/-- C10 witness: Hemoglobin at value 6 on the CBC catalog (status
CRITICAL_LOW) yields the fallback interpretation. -/
theorem C10_critical_fallback_witness :
    (CompleteBloodCount = CompleteBloodCount ∨ CompleteBloodCount = BasicMetabolicPanel ∨
      CompleteBloodCount = LipidPanel) ∧
    dictLookup CompleteBloodCount.reference_ranges ("Hemoglobin") = some hemoglobinRange ∧
    (hemoglobinRange.get_status 6 = ResultStatus.CRITICAL_LOW ∨
      hemoglobinRange.get_status 6 = ResultStatus.CRITICAL_HIGH) ∧
    (noCriticalTexts CompleteBloodCount = true ∧
      (CompleteBloodCount.interpret_result ("Hemoglobin") 6).1 =
        Except.ok (interpretOutcome CompleteBloodCount ("Hemoglobin") 6 hemoglobinRange) ∧
      (interpretOutcome CompleteBloodCount ("Hemoglobin") 6 hemoglobinRange).interpretation =
        "See reference ranges.") :=
  ⟨Or.inl rfl, rfl, Or.inl (by decide),
    C10_critical_fallback CompleteBloodCount ("Hemoglobin") hemoglobinRange 6
      (Or.inl rfl) rfl (Or.inl (by decide))⟩
